import Mathlib

/-!
Verification of the meal-optimization model declared in
`src/meal-optimizer.py` against its specification.

The script declares a PuLP integer program: six ingredient variables,
a minimum-cost objective, and eight nutritional constraints, then
delegates solving to the external solver.  We embed the declared model
(ingredient list, cost and nutrient tables, the variable dictionary as
it is actually built, the objective and the constraint list) as Lean
definitions over `ℚ`, and prove the claims about it.  The external
solver and the Model Builder of the specification are not part of the
repository; where a claim depends on them, a definition marked
`Modelled from the spec:` captures the specified contract.
-/

namespace MealOpt

/-- The six ingredients of the `Ingredients` list (line 12 of the script). -/
inductive Ingredient where
  | FRANGO
  | ARROZ_BRANCO
  | FEIJAO
  | FAROFA
  | MACA
  | OLEO_DE_SOJA
deriving DecidableEq, Repr, Fintype

open Ingredient

/-- `Ingredients = ["FRANGO", "ARROZ_BRANCO", "FEIJÃO", "FAROFA", "MAÇÃ", "ÓLEO_DE_SOJA"]`,
in source order (line 12). -/
def Ingredients : List Ingredient :=
  [FRANGO, ARROZ_BRANCO, FEIJAO, FAROFA, MACA, OLEO_DE_SOJA]

/-- The Python string key of each ingredient, as used in the dictionaries. -/
def ingrKey : Ingredient → String
  | FRANGO => "FRANGO"
  | ARROZ_BRANCO => "ARROZ_BRANCO"
  | FEIJAO => "FEIJÃO"
  | FAROFA => "FAROFA"
  | MACA => "MAÇÃ"
  | OLEO_DE_SOJA => "ÓLEO_DE_SOJA"

/-- Cost per 10 g serving (lines 16–23). -/
def costs : Ingredient → ℚ
  | FRANGO => 0.1649
  | ARROZ_BRANCO => 0.048
  | FEIJAO => 0.0625
  | FAROFA => 0.178
  | MACA => 0.845
  | OLEO_DE_SOJA => 0.111

/-- Calories per serving (lines 26–33). -/
def calorieAmount : Ingredient → ℚ
  | FRANGO => 17.3
  | ARROZ_BRANCO => 35.812
  | FEIJAO => 32.903
  | FAROFA => 40.6
  | MACA => 81.289
  | OLEO_DE_SOJA => 88.4

/-- Protein per serving (lines 36–43). -/
def proteinAmount : Ingredient → ℚ
  | FRANGO => 3.091
  | ARROZ_BRANCO => 0.724
  | FEIJAO => 1.998
  | FAROFA => 0.21
  | MACA => 0.299
  | OLEO_DE_SOJA => 0

/-- Fat per serving (lines 46–53). -/
def fatAmount : Ingredient → ℚ
  | FRANGO => 0.451
  | ARROZ_BRANCO => 0.028
  | FEIJAO => 0.126
  | FAROFA => 0.91
  | MACA => 0.325
  | OLEO_DE_SOJA => 10

/-- Carbohydrate per serving (lines 56–63). -/
def carbohydrateAmount : Ingredient → ℚ
  | FRANGO => 0
  | ARROZ_BRANCO => 7.888
  | FEIJAO => 6.122
  | FAROFA => 8.03
  | MACA => 21.567
  | OLEO_DE_SOJA => 0

/-- Salt (mg) per serving (lines 66–73). -/
def saltAmount : Ingredient → ℚ
  | FRANGO => 7.7
  | ARROZ_BRANCO => 0.057
  | FEIJAO => 0
  | FAROFA => 575
  | MACA => 17.16
  | OLEO_DE_SOJA => 0

/-- A PuLP `LpVariable`: name, lower bound, optional upper bound,
integrality category (`isInteger = true` is `cat=LpInteger`). -/
structure LpVar where
  name : String
  lowBound : ℚ
  upBound : Option ℚ
  isInteger : Bool
deriving DecidableEq, Repr

/-- `LpVariable.dicts("Ingr", Ingredients, lowBound=0, cat=LpInteger)`
creates, for each key, a variable named `Ingr_<key>` with lower bound 0
and integer category (line 80). -/
def dictsVar (i : Ingredient) : LpVar :=
  ⟨"Ingr_" ++ ingrKey i, 0, none, true⟩

/-- `apple = LpVariable("Ingr_MAÇÃ", lowBound=1, upBound=1, cat=LpInteger)` (line 83). -/
def apple : LpVar := ⟨"Ingr_MAÇÃ", 1, some 1, true⟩

/-- `frango = LpVariable("Ingr_FRANGO", lowBound=3, cat=LpInteger)` (line 85). -/
def frango : LpVar := ⟨"Ingr_FRANGO", 3, none, true⟩

/-- `feijao = LpVariable("Ingr_FEIJÃO", lowBound=4, cat=LpInteger)` (line 87). -/
def feijao : LpVar := ⟨"Ingr_FEIJÃO", 4, none, true⟩

/-- `arroz = LpVariable("Ingr_ARROZ", lowBound=1, cat=LpInteger)` (line 89). -/
def arroz : LpVar := ⟨"Ingr_ARROZ", 1, none, true⟩

/-- `farofa = LpVariable("Ingr_FAROFA", lowBound=1, cat=LpInteger)` (line 91). -/
def farofa : LpVar := ⟨"Ingr_FAROFA", 1, none, true⟩

/-- Python dict assignment `d[k] = v`: replace in place when the key is
present, append otherwise (insertion order preserved). -/
def dictSet (d : List (String × LpVar)) (k : String) (v : LpVar) :
    List (String × LpVar) :=
  if d.any (fun p => p.1 == k) then
    d.map (fun p => if p.1 == k then (k, v) else p)
  else
    d ++ [(k, v)]

/-- The dictionary returned by `LpVariable.dicts` (line 80), keyed by the
ingredient strings. -/
def dict0 : List (String × LpVar) :=
  Ingredients.map (fun i => (ingrKey i, dictsVar i))

/-- `ingredient_vars` after the five reassignments of lines 84–92.  Note
line 90 writes the key `"ARROZ"` — not `"ARROZ_BRANCO"` — so the
lower-bound-1 variable `arroz` lands under a key no ingredient uses. -/
def ingredient_vars : List (String × LpVar) :=
  dictSet (dictSet (dictSet (dictSet (dictSet dict0
    "MAÇÃ" apple) "FRANGO" frango) "FEIJÃO" feijao) "ARROZ" arroz)
    "FAROFA" farofa

/-- `ingredient_vars[i]` for an ingredient `i` of the `Ingredients` list:
the dictionary lookup performed inside each `lpSum` comprehension. -/
def lookupVar (i : Ingredient) : LpVar :=
  (((ingredient_vars.find? (fun p => p.1 == ingrKey i)).map Prod.snd).getD
    ⟨"", 0, none, true⟩)

/-- Relational operator of a constraint: `<=`, `=` or `>=`. -/
inductive Op where
  | le
  | eq
  | ge
deriving DecidableEq, Repr

/-- Optimization sense of an `LpProblem`. -/
inductive Sense where
  | minimize
  | maximize
deriving DecidableEq, Repr

/-- A named constraint: coefficient per ingredient (the `lpSum` over
`Ingredients` of `coeff[i] * ingredient_vars[i]`), an operator and a
constant right-hand side. -/
structure Constraint where
  cname : String
  coeffs : Ingredient → ℚ
  op : Op
  rhs : ℚ

/-- The problem under construction: `LpProblem("The Meal Problem", LpMinimize)`
accumulates an objective and constraints through `+=` (lines 77, 95–144). -/
structure LpProblem where
  pname : String
  sense : Sense
  objective : Option (Ingredient → ℚ)
  constraints : List Constraint

/-- `problem += (lpSum(...), name)` with a bare expression sets the objective. -/
def addObjective (p : LpProblem) (o : Ingredient → ℚ) : LpProblem :=
  { p with objective := some o }

/-- `problem += (expr <op> rhs, name)` appends a constraint. -/
def addConstraint (p : LpProblem) (c : Constraint) : LpProblem :=
  { p with constraints := p.constraints ++ [c] }

/-- Line 77: `problem = LpProblem("The Meal Problem", LpMinimize)`. -/
def problem0 : LpProblem := ⟨"The Meal Problem", Sense.minimize, none, []⟩

/-- The constraint of lines 105–108. -/
def calorieC : Constraint := ⟨"CalorieRequirement", calorieAmount, Op.ge, 700⟩

/-- The constraint of lines 111–114. -/
def minProteinC : Constraint := ⟨"MinProteinRequirement", proteinAmount, Op.ge, 18⟩

/-- The constraint of lines 116–119. -/
def maxProteinC : Constraint := ⟨"MaxProteinRequirement", proteinAmount, Op.le, 27⟩

/-- The constraint of lines 121–124. -/
def minFatC : Constraint := ⟨"MinFatRequirement", fatAmount, Op.ge, 12⟩

/-- The constraint of lines 126–129. -/
def maxFatC : Constraint := ⟨"MaxFatRequirement", fatAmount, Op.le, 24⟩

/-- The constraint of lines 131–134. -/
def minCarbC : Constraint := ⟨"MinCarbohydrateRequirement", carbohydrateAmount, Op.ge, 98⟩

/-- The constraint of lines 136–139. -/
def maxCarbC : Constraint := ⟨"MaxCarbohydrateRequirement", carbohydrateAmount, Op.le, 116⟩

/-- The constraint of lines 141–144. -/
def saltC : Constraint := ⟨"SaltRequirement", saltAmount, Op.le, 800⟩

/-- The fully assembled problem: objective first (lines 95–98), then the
eight constraints in source order (lines 105–144). -/
def problem : LpProblem :=
  addConstraint (addConstraint (addConstraint (addConstraint (addConstraint
    (addConstraint (addConstraint (addConstraint
      (addObjective problem0 (fun i => costs i))
    calorieC) minProteinC) maxProteinC) minFatC) maxFatC) minCarbC) maxCarbC)
    saltC

/-- An assignment of a numeric value to each ingredient variable. -/
def Assignment : Type := Ingredient → ℚ

/-- Value of a linear expression `lpSum([coeff[i] * ingredient_vars[i] for i in Ingredients])`
at an assignment. -/
def exprVal (coeffs : Ingredient → ℚ) (a : Assignment) : ℚ :=
  (Ingredients.map (fun i => coeffs i * a i)).sum

/-- Exact satisfaction of one constraint at an assignment. -/
def satisfies (c : Constraint) (a : Assignment) : Prop :=
  match c.op with
  | Op.le => exprVal c.coeffs a ≤ c.rhs
  | Op.eq => exprVal c.coeffs a = c.rhs
  | Op.ge => c.rhs ≤ exprVal c.coeffs a

/-- The fixed-precision comparison tolerance ε = 1e-9 of the specification. -/
def eps : ℚ := 1 / 1000000000

/-- Satisfaction of a constraint's operator within the tolerance ε. -/
def satisfiesWithin (c : Constraint) (a : Assignment) : Prop :=
  match c.op with
  | Op.le => exprVal c.coeffs a ≤ c.rhs + eps
  | Op.eq => |exprVal c.coeffs a - c.rhs| ≤ eps
  | Op.ge => c.rhs - eps ≤ exprVal c.coeffs a

/-- The assignment respects the bounds of the variable actually used for
each ingredient in the model. -/
def withinBounds (a : Assignment) : Prop :=
  ∀ i, (lookupVar i).lowBound ≤ a i ∧
    (match (lookupVar i).upBound with
     | some u => a i ≤ u
     | none => True)

/-- Value of the problem's objective at an assignment (0 when no
objective was set). -/
def objValue (p : LpProblem) (a : Assignment) : ℚ :=
  match p.objective with
  | some o => exprVal o a
  | none => 0

/-- A feasible assignment of the declared model: within the variable
bounds and exactly satisfying every constraint of `problem`. -/
def Feasible (a : Assignment) : Prop :=
  withinBounds a ∧ ∀ c ∈ problem.constraints, satisfies c a

/-- Every variable value is integral (relevant because every declared
variable has `cat=LpInteger`). -/
def Integral (a : Assignment) : Prop :=
  ∀ i, ∃ n : ℤ, a i = (n : ℚ)

/-- PuLP solution status values (`LpStatus` keys). -/
inductive Status where
  | optimal
  | notSolved
  | infeasible
  | unbounded
  | undefined
deriving DecidableEq, Repr

/-- One step of the report section (lines 153–186 of the script). -/
inductive ReportAction where
  | printStatus (s : Status)
  | readVarValue
  | readObjective
  | readNutrientTotal (coeffs : Ingredient → ℚ)

/-- The names of the variables appearing in the assembled problem
(`problem.variables()` of line 161): the variable the model actually
uses for each ingredient. -/
def problemVarNames : List String :=
  Ingredients.map (fun i => (lookupVar i).name)

/-- The report section of lines 153–186, as a function of the solver's
returned status: it prints `LpStatus[problem.status]`, then — with no
branch on the status — reads `v.varValue` for every problem variable,
reads `value(problem.objective)`, and reads the five nutrient totals
(each a `value(lpSum(...))` over the assignment). -/
def report (s : Status) : List ReportAction :=
  ReportAction.printStatus s ::
    (problemVarNames.map (fun _ => ReportAction.readVarValue) ++
      (ReportAction.readObjective ::
        [ReportAction.readNutrientTotal calorieAmount,
         ReportAction.readNutrientTotal proteinAmount,
         ReportAction.readNutrientTotal fatAmount,
         ReportAction.readNutrientTotal carbohydrateAmount,
         ReportAction.readNutrientTotal saltAmount]))

/-- Whether the report, run after a solve that returned status `s`,
reads the solution's assignment (a `v.varValue` or a nutrient total). -/
def readsAssignment (s : Status) : Prop :=
  ∃ act ∈ report s,
    (∃ c, act = ReportAction.readNutrientTotal c) ∨
      act = ReportAction.readVarValue

/-- Whether the report, run after a solve that returned status `s`,
reads the objective value. -/
def readsObjective (s : Status) : Prop :=
  ReportAction.readObjective ∈ report s

/-- Modelled from the spec: the §4.4 Model Builder is not part of the
repository (the script delegates variable registration to the external
PuLP package); the spec's contract is that it accumulates Variables,
"rejecting duplicate names with DuplicateVariable error", or
unknown-variable references with UnknownVariable. -/
inductive BuildError where
  | DuplicateVariable (nm : String)
  | UnknownVariable (nm : String)
deriving DecidableEq, Repr

/-- Modelled from the spec: the Model Builder's accumulated state — the
ordered sequence of registered Variables. -/
structure Builder where
  vars : List LpVar
deriving DecidableEq, Repr

/-- Modelled from the spec: registering a Variable fails with
`DuplicateVariable` when a Variable of the same name is already
registered, before any solve attempt. -/
def registerVar (b : Builder) (v : LpVar) : Except BuildError Builder :=
  if b.vars.any (fun w => w.name == v.name) then
    Except.error (BuildError.DuplicateVariable v.name)
  else
    Except.ok ⟨b.vars ++ [v]⟩

/-- Modelled from the spec: registering a sequence of Variables in order,
stopping at the first duplicate name. -/
def registerAll (vs : List LpVar) : Except BuildError Builder :=
  vs.foldlM registerVar ⟨[]⟩

/-- Modelled from the spec: §4.2's guarantee for the assignment the
external solver returns with status `optimal` — "returned values satisfy
all constraints within ε" — specialized to the declared model. -/
def ReturnedOptimal (a : Assignment) : Prop :=
  ∀ c ∈ problem.constraints, satisfiesWithin c a

/-- Modelled from the spec: §8's guarantee on integer-flagged variables
of an `optimal` solution — "the returned value is within ε of an
integer" — specialized to the declared model's variables. -/
def IntegerRounded (a : Assignment) : Prop :=
  ∀ i, (lookupVar i).isInteger = true → ∃ n : ℤ, |a i - (n : ℚ)| ≤ eps

/-- A concrete assignment: 3 servings of chicken, 7 of white rice, 4 of
beans, 1 of farofa, 1 of apple, 2 of soy oil. -/
def aStar : Assignment := fun i =>
  match i with
  | FRANGO => 3
  | ARROZ_BRANCO => 7
  | FEIJAO => 4
  | FAROFA => 1
  | MACA => 1
  | OLEO_DE_SOJA => 2

section Helpers

lemma lookupVar_FRANGO : lookupVar FRANGO = frango := rfl

lemma lookupVar_ARROZ_BRANCO : lookupVar ARROZ_BRANCO = dictsVar ARROZ_BRANCO := rfl

lemma lookupVar_FEIJAO : lookupVar FEIJAO = feijao := rfl

lemma lookupVar_FAROFA : lookupVar FAROFA = farofa := rfl

lemma lookupVar_MACA : lookupVar MACA = apple := rfl

lemma lookupVar_OLEO : lookupVar OLEO_DE_SOJA = dictsVar OLEO_DE_SOJA := rfl

lemma constraints_eq : problem.constraints =
    [calorieC, minProteinC, maxProteinC, minFatC, maxFatC, minCarbC,
     maxCarbC, saltC] := rfl

lemma exprVal_expand (c : Ingredient → ℚ) (a : Assignment) :
    exprVal c a =
      c FRANGO * a FRANGO + (c ARROZ_BRANCO * a ARROZ_BRANCO +
        (c FEIJAO * a FEIJAO + (c FAROFA * a FAROFA +
          (c MACA * a MACA + (c OLEO_DE_SOJA * a OLEO_DE_SOJA + 0))))) := rfl

lemma calorieC_mem : calorieC ∈ problem.constraints := by
  rw [constraints_eq]; simp

lemma minProteinC_mem : minProteinC ∈ problem.constraints := by
  rw [constraints_eq]; simp

lemma maxProteinC_mem : maxProteinC ∈ problem.constraints := by
  rw [constraints_eq]; simp

lemma minFatC_mem : minFatC ∈ problem.constraints := by
  rw [constraints_eq]; simp

lemma maxFatC_mem : maxFatC ∈ problem.constraints := by
  rw [constraints_eq]; simp

lemma minCarbC_mem : minCarbC ∈ problem.constraints := by
  rw [constraints_eq]; simp

lemma maxCarbC_mem : maxCarbC ∈ problem.constraints := by
  rw [constraints_eq]; simp

lemma saltC_mem : saltC ∈ problem.constraints := by
  rw [constraints_eq]; simp

lemma eps_pos : 0 < eps := by norm_num [eps]

lemma satisfies_imp_within (c : Constraint) (a : Assignment)
    (h : satisfies c a) : satisfiesWithin c a := by
  rcases c with ⟨n, co, op, r⟩
  cases op <;> simp only [satisfies, satisfiesWithin] at h ⊢
  · linarith [eps_pos]
  · rw [h]; simpa using le_of_lt eps_pos
  · linarith [eps_pos]

lemma aStar_withinBounds : withinBounds aStar := by
  intro i
  cases i
  case FRANGO => exact ⟨by norm_num [lookupVar_FRANGO, frango, aStar], trivial⟩
  case ARROZ_BRANCO =>
    exact ⟨by norm_num [lookupVar_ARROZ_BRANCO, dictsVar, aStar], trivial⟩
  case FEIJAO => exact ⟨by norm_num [lookupVar_FEIJAO, feijao, aStar], trivial⟩
  case FAROFA => exact ⟨by norm_num [lookupVar_FAROFA, farofa, aStar], trivial⟩
  case MACA => exact ⟨le_refl 1, le_refl 1⟩
  case OLEO_DE_SOJA =>
    exact ⟨by norm_num [lookupVar_OLEO, dictsVar, aStar], trivial⟩

lemma aStar_satisfies : ∀ c ∈ problem.constraints, satisfies c aStar := by
  intro c hc
  rw [constraints_eq] at hc
  simp only [List.mem_cons, List.not_mem_nil, or_false] at hc
  rcases hc with rfl | rfl | rfl | rfl | rfl | rfl | rfl | rfl <;>
    simp only [satisfies, calorieC, minProteinC, maxProteinC, minFatC,
      maxFatC, minCarbC, maxCarbC, saltC, exprVal_expand] <;>
    norm_num [calorieAmount, proteinAmount, fatAmount, carbohydrateAmount,
      saltAmount, aStar]

end Helpers

/-- C1: the four variables MAÇÃ, FRANGO, FEIJÃO and FAROFA used by the
model carry lower bounds 1, 3, 4 and 1, but the white-rice variable the
model actually uses (`Ingr_ARROZ_BRANCO`) carries lower bound 0: the
lower-bound-1 variable `arroz` created on line 89 is stored under the
dict key "ARROZ" (line 90), which no ingredient of the model uses, so
the claimed minimum of 1 serving of white rice is not enforced by the
declared bounds. -/
theorem C1_rice_lower_bound_dropped :
    (lookupVar MACA).lowBound = 1 ∧ (lookupVar FRANGO).lowBound = 3 ∧
    (lookupVar FEIJAO).lowBound = 4 ∧ (lookupVar FAROFA).lowBound = 1 ∧
    (lookupVar ARROZ_BRANCO).lowBound = 0 ∧
    arroz.lowBound = 1 ∧
    (ingredient_vars.find? (fun p => p.1 == "ARROZ")).map Prod.snd =
      some arroz :=
  ⟨rfl, rfl, rfl, rfl, rfl, rfl, rfl⟩

/-- C2 counterexample: after a solve returning status `infeasible`, the
report section still reads the assignment and the objective value —
there is no branch on the status — so the assignment is read in a run
whose status is not `optimal`. -/
theorem C2_counterexample :
    readsAssignment Status.infeasible ∧ readsObjective Status.infeasible ∧
    Status.infeasible ≠ Status.optimal := by
  refine ⟨⟨ReportAction.readVarValue, ?_, Or.inr rfl⟩, ?_, by decide⟩
  · simp [report, problemVarNames, Ingredients]
  · simp [readsObjective, report]

/-- C2 (amended): whatever status the solver returns, the report section
prints the status and then unconditionally reads every variable's value,
the objective value and the five nutrient totals. -/
theorem C2_reads_unconditionally (s : Status) :
    readsAssignment s ∧ readsObjective s := by
  refine ⟨⟨ReportAction.readVarValue, ?_, Or.inr rfl⟩, ?_⟩
  · simp [report, problemVarNames, Ingredients]
  · simp [readsObjective, report]

/-- C2 witness for the amended claim, at the status `unbounded`. -/
theorem C2_reads_unconditionally_witness :
    readsAssignment Status.unbounded ∧ readsObjective Status.unbounded :=
  C2_reads_unconditionally Status.unbounded

/-- C3: under the spec's Model Builder contract, after the six
`LpVariable.dicts` variables are registered, registering the second
variables named Ingr_MAÇÃ, Ingr_FRANGO, Ingr_FEIJÃO and Ingr_FAROFA is
rejected with a `DuplicateVariable` error at assembly time (the builder
does no solving), while `arroz` — named Ingr_ARROZ, a fresh name — would
be accepted. -/
theorem C3_duplicate_names_rejected :
    ∃ b : Builder, registerAll (Ingredients.map dictsVar) = Except.ok b ∧
      registerVar b apple =
        Except.error (BuildError.DuplicateVariable "Ingr_MAÇÃ") ∧
      registerVar b frango =
        Except.error (BuildError.DuplicateVariable "Ingr_FRANGO") ∧
      registerVar b feijao =
        Except.error (BuildError.DuplicateVariable "Ingr_FEIJÃO") ∧
      registerVar b farofa =
        Except.error (BuildError.DuplicateVariable "Ingr_FAROFA") ∧
      registerVar b arroz = Except.ok ⟨b.vars ++ [arroz]⟩ :=
  ⟨⟨Ingredients.map dictsVar⟩, rfl, rfl, rfl, rfl, rfl, rfl⟩

/-- C4: any assignment the solver returns as optimal for the declared
model — which by the spec's guarantee satisfies every constraint of the
model within ε — satisfies each of the eight nutritional constraints
(calories ≥ 700, 18 ≤ protein ≤ 27, 12 ≤ fat ≤ 24, 98 ≤ carbohydrate
≤ 116, salt ≤ 800) within ε = 1e-9. -/
theorem C4_constraints_hold_within_eps (a : Assignment)
    (h : ReturnedOptimal a) :
    700 - eps ≤ exprVal calorieAmount a ∧
    18 - eps ≤ exprVal proteinAmount a ∧
    exprVal proteinAmount a ≤ 27 + eps ∧
    12 - eps ≤ exprVal fatAmount a ∧
    exprVal fatAmount a ≤ 24 + eps ∧
    98 - eps ≤ exprVal carbohydrateAmount a ∧
    exprVal carbohydrateAmount a ≤ 116 + eps ∧
    exprVal saltAmount a ≤ 800 + eps :=
  ⟨h calorieC calorieC_mem, h minProteinC minProteinC_mem,
   h maxProteinC maxProteinC_mem, h minFatC minFatC_mem,
   h maxFatC maxFatC_mem, h minCarbC minCarbC_mem,
   h maxCarbC maxCarbC_mem, h saltC saltC_mem⟩

/-- C4 witness: the concrete assignment `aStar` satisfies the model's
constraints exactly, hence within ε, and the eight bounds follow. -/
theorem C4_witness :
    700 - eps ≤ exprVal calorieAmount aStar ∧
    18 - eps ≤ exprVal proteinAmount aStar ∧
    exprVal proteinAmount aStar ≤ 27 + eps ∧
    12 - eps ≤ exprVal fatAmount aStar ∧
    exprVal fatAmount aStar ≤ 24 + eps ∧
    98 - eps ≤ exprVal carbohydrateAmount aStar ∧
    exprVal carbohydrateAmount aStar ≤ 116 + eps ∧
    exprVal saltAmount aStar ≤ 800 + eps :=
  C4_constraints_hold_within_eps aStar
    (fun c hc => satisfies_imp_within c aStar (aStar_satisfies c hc))

/-- C5: every variable of the declared model is integer-flagged
(`cat=LpInteger`), so under the spec's integrality guarantee for optimal
solutions, every ingredient's returned value is within ε of an
integer. -/
theorem C5_values_near_integer (a : Assignment) (h : IntegerRounded a) :
    (∀ i, (lookupVar i).isInteger = true) ∧
    ∀ i, ∃ n : ℤ, |a i - (n : ℚ)| ≤ eps :=
  ⟨fun i => by cases i <;> rfl, fun i => h i (by cases i <;> rfl)⟩

/-- C5 witness: at the integer-valued assignment `aStar`, every value is
within ε of an integer. -/
theorem C5_witness :
    (∀ i, (lookupVar i).isInteger = true) ∧
    ∀ i, ∃ n : ℤ, |aStar i - (n : ℚ)| ≤ eps :=
  C5_values_near_integer aStar (by
    intro i _
    cases i
    exacts [⟨3, by norm_num [aStar, eps]⟩, ⟨7, by norm_num [aStar, eps]⟩,
      ⟨4, by norm_num [aStar, eps]⟩, ⟨1, by norm_num [aStar, eps]⟩,
      ⟨1, by norm_num [aStar, eps]⟩, ⟨2, by norm_num [aStar, eps]⟩])

/-- C6: the problem's sense is minimization, and its objective is the
total meal cost: the sum over the six ingredients of the cost table's
coefficient times the ingredient's variable. -/
theorem C6_objective_minimizes_cost :
    problem.sense = Sense.minimize ∧
    ∀ a : Assignment, objValue problem a =
      0.1649 * a FRANGO + 0.048 * a ARROZ_BRANCO + 0.0625 * a FEIJAO +
      0.178 * a FAROFA + 0.845 * a MACA + 0.111 * a OLEO_DE_SOJA := by
  refine ⟨rfl, fun a => ?_⟩
  show exprVal (fun i => costs i) a = _
  rw [exprVal_expand]
  norm_num [costs]
  ring

/-- C6 witness: the objective formula evaluated at the concrete
assignment `aStar`. -/
theorem C6_witness :
    problem.sense = Sense.minimize ∧
    objValue problem aStar =
      0.1649 * aStar FRANGO + 0.048 * aStar ARROZ_BRANCO +
      0.0625 * aStar FEIJAO + 0.178 * aStar FAROFA +
      0.845 * aStar MACA + 0.111 * aStar OLEO_DE_SOJA :=
  ⟨C6_objective_minimizes_cost.1, C6_objective_minimizes_cost.2 aStar⟩

/-- C7: every constraint of the declared model relates a linear
expression over the registered ingredient variables to a constant
right-hand side by an operator among ≤, = and ≥, and the model has at
least one nutritional constraint for each of the five nutrients:
calories, protein, fat, carbohydrate and salt. -/
theorem C7_constraints_well_formed :
    (∀ c ∈ problem.constraints,
      c.op = Op.le ∨ c.op = Op.eq ∨ c.op = Op.ge) ∧
    (∃ c ∈ problem.constraints, c.coeffs = calorieAmount) ∧
    (∃ c ∈ problem.constraints, c.coeffs = proteinAmount) ∧
    (∃ c ∈ problem.constraints, c.coeffs = fatAmount) ∧
    (∃ c ∈ problem.constraints, c.coeffs = carbohydrateAmount) ∧
    (∃ c ∈ problem.constraints, c.coeffs = saltAmount) := by
  refine ⟨?_, ⟨calorieC, calorieC_mem, rfl⟩, ⟨minProteinC, minProteinC_mem, rfl⟩,
    ⟨minFatC, minFatC_mem, rfl⟩, ⟨minCarbC, minCarbC_mem, rfl⟩,
    ⟨saltC, saltC_mem, rfl⟩⟩
  intro c _
  rcases c with ⟨n, co, op, r⟩
  cases op
  · exact Or.inl rfl
  · exact Or.inr (Or.inl rfl)
  · exact Or.inr (Or.inr rfl)

/-- C7 witness: the calorie constraint's operator is among ≤, =, ≥. -/
theorem C7_witness :
    calorieC.op = Op.le ∨ calorieC.op = Op.eq ∨ calorieC.op = Op.ge :=
  C7_constraints_well_formed.1 calorieC calorieC_mem

/-- C8: the apple variable has lower bound 1 and upper bound 1, so any
assignment within the declared bounds has exactly 1 serving of MAÇÃ. -/
theorem C8_apple_fixed_at_one (a : Assignment) (h : withinBounds a) :
    a MACA = 1 := by
  obtain ⟨h1, h2⟩ := h MACA
  have h1' : (1 : ℚ) ≤ a MACA := h1
  have h2' : a MACA ≤ 1 := h2
  exact le_antisymm h2' h1'

/-- C8 witness: the concrete in-bounds assignment `aStar` has 1 apple. -/
theorem C8_witness : aStar MACA = 1 :=
  C8_apple_fixed_at_one aStar aStar_withinBounds

/-- C9: in every integral assignment that is feasible for the declared
model, FAROFA is exactly 1: the bound forces at least 1, and the salt
constraint (575 mg per serving, total ≤ 800 mg) forbids 2 or more. -/
theorem C9_farofa_exactly_one (a : Assignment) (hb : withinBounds a)
    (hc : ∀ c ∈ problem.constraints, satisfies c a)
    (hn : ∃ n : ℤ, a FAROFA = (n : ℚ)) : a FAROFA = 1 := by
  have hsalt : exprVal saltAmount a ≤ 800 := hc saltC saltC_mem
  rw [exprVal_expand] at hsalt
  have hFR : (3 : ℚ) ≤ a FRANGO := (hb FRANGO).1
  have hAR : (0 : ℚ) ≤ a ARROZ_BRANCO := (hb ARROZ_BRANCO).1
  have hFA : (1 : ℚ) ≤ a FAROFA := (hb FAROFA).1
  have hMA : (1 : ℚ) ≤ a MACA := (hb MACA).1
  obtain ⟨n, hneq⟩ := hn
  rw [hneq] at hFA hsalt ⊢
  simp only [saltAmount] at hsalt
  have hlt : (n : ℚ) < 2 := by linarith
  have h1 : (1 : ℤ) ≤ n := by exact_mod_cast hFA
  have h2 : n < 2 := by exact_mod_cast hlt
  have hn1 : n = 1 := by omega
  rw [hn1]
  norm_num

/-- C9 witness: the concrete feasible integral assignment `aStar` has
exactly 1 serving of FAROFA. -/
theorem C9_witness : aStar FAROFA = 1 :=
  C9_farofa_exactly_one aStar aStar_withinBounds aStar_satisfies
    ⟨1, by norm_num [aStar]⟩

/-- C10: every cost coefficient is non-negative and every declared lower
bound is non-negative, so at any assignment respecting the lower bounds
the objective value is non-negative. -/
theorem C10_objective_nonneg (a : Assignment)
    (h : ∀ i, (lookupVar i).lowBound ≤ a i) : 0 ≤ objValue problem a := by
  have hFR : (3 : ℚ) ≤ a FRANGO := h FRANGO
  have hAR : (0 : ℚ) ≤ a ARROZ_BRANCO := h ARROZ_BRANCO
  have hFE : (4 : ℚ) ≤ a FEIJAO := h FEIJAO
  have hFA : (1 : ℚ) ≤ a FAROFA := h FAROFA
  have hMA : (1 : ℚ) ≤ a MACA := h MACA
  have hOL : (0 : ℚ) ≤ a OLEO_DE_SOJA := h OLEO_DE_SOJA
  have hobj : objValue problem a = exprVal (fun i => costs i) a := rfl
  rw [hobj, exprVal_expand]
  simp only [costs]
  linarith

/-- C10 witness: the objective is non-negative at the concrete in-bounds
assignment `aStar`. -/
theorem C10_witness : 0 ≤ objValue problem aStar :=
  C10_objective_nonneg aStar (fun i => (aStar_withinBounds i).1)

end MealOpt
